import Mathlib

/-!
Verification of the streamer-chess video client core
(`backend/opencv_rtsp_client.py` and `backend/main.py`) against its
natural-language specification.

The Python code is shallowly embedded: the OpenCV capture object is
modelled as an oracle stream of read results, the in-place OpenCV drawing
calls as overlay marks accumulated on a frame, and the YOLO model as an
uninterpreted inference function that may fail.  All definitions are
executable, so every concrete scenario below evaluates.
-/

namespace StreamerChess

/-- One colour triple, as passed to the OpenCV drawing calls. -/
abbrev Color := Nat × Nat × Nat

/-- A visual mark drawn onto a frame.  `cv2.rectangle` / `cv2.putText`
mutate the pixel buffer in place; we model each call as appending a mark,
which preserves exactly the information the spec calls an "overlay".
`text` keeps the class name and confidence structured, since the source
formats them with Python float formatting (external to the embedding). -/
inductive Overlay where
  | rect (x1 y1 x2 y2 : Int) (color : Color) (thickness : Int)
  | text (cls : String) (conf : ℚ) (x y : Int) (color : Color)
  deriving DecidableEq, Repr

/-- A decoded image: the raw byte buffer plus the marks drawn on it. -/
structure Frame where
  pixels : List Nat
  overlays : List Overlay
  deriving DecidableEq, Repr

/-- Result of one `cap.read()` call: `ok frame` when `ret` is true,
`fail` when `ret` is false (in which case OpenCV yields no usable frame). -/
inductive ReadResult where
  | ok (frame : Frame)
  | fail
  deriving DecidableEq, Repr

/-- Inner buffer-flush helper for the loop
`for _ in range(3): ret, frame = cap.read(); if not ret: break`
(opencv_rtsp_client.py lines 173-176).  `reads` is the oracle stream of
results the capture would deliver; `pos` indexes the next read.  The
accumulator holds the current `(ret, frame)` pair; it is overwritten by
every read performed, so the returned pair is the last read's outcome. -/
def flushAux (reads : Nat → ReadResult) : Nat → Nat → Bool × Option Frame →
    (Bool × Option Frame) × Nat
  | 0, pos, acc => (acc, pos)
  | fuel + 1, pos, _ =>
    match reads pos with
    | .ok f => flushAux reads fuel (pos + 1) (true, some f)
    | .fail => ((false, none), pos + 1)

/-- The flush performed at the top of every acquisition iteration:
up to 3 reads, stopping after the first failed one.  Returns the final
`(ret, frame)` pair and the new stream position (= number of reads
consumed so far). -/
def flush (reads : Nat → ReadResult) (pos : Nat) : (Bool × Option Frame) × Nat :=
  flushAux reads 3 pos (false, none)

/-- The per-session mutable state of the acquisition loop that the claims
mention (opencv_rtsp_client.py lines 162-165): the position in the read
oracle stands for the capture handle's progress. -/
structure LoopState where
  pos : Nat
  no_frame_count : Nat
  frame_count : Nat
  screenshot_count : Nat
  deriving DecidableEq, Repr

/-- Observable outcome of one outer `while True` iteration of the
acquisition loop. -/
inductive StepOut where
  | displayed (fr : Option Frame)
  | skipped
  | reconnected
  | terminated
  deriving DecidableEq, Repr

/-- One iteration of the acquisition loop (opencv_rtsp_client.py lines
170-198), up to and including the failure bookkeeping: flush the buffer;
on success reset `no_frame_count` to 0 and surface the frame; on failure
increment `no_frame_count`; when it exceeds 30, release and reopen the
capture — on reopen success reset the counter to 0 (`reconnected`), on
reopen failure `break` out of the loop (`terminated`).  `reopenOk` is the
oracle for whether `cv2.VideoCapture(...)` reopens successfully. -/
def loopStep (reads : Nat → ReadResult) (reopenOk : Bool) (s : LoopState) :
    LoopState × StepOut :=
  match flush reads s.pos with
  | ((true, fr), posNew) =>
    ({ s with pos := posNew, no_frame_count := 0, frame_count := s.frame_count + 1 },
      .displayed fr)
  | ((false, _), posNew) =>
    let c := s.no_frame_count + 1
    if 30 < c then
      if reopenOk then
        ({ s with pos := posNew, no_frame_count := 0 }, .reconnected)
      else
        ({ s with pos := posNew, no_frame_count := c }, .terminated)
    else
      ({ s with pos := posNew, no_frame_count := c }, .skipped)

/-- Run `n` acquisition iterations, collecting each iteration's outcome. -/
def runLoop (reads : Nat → ReadResult) (reopenOk : Bool) :
    Nat → LoopState → LoopState × List StepOut
  | 0, s => (s, [])
  | n + 1, s =>
    let r := loopStep reads reopenOk s
    let rest := runLoop reads reopenOk n r.1
    (rest.1, r.2 :: rest.2)

/-- The loop state at session start (counters zeroed,
opencv_rtsp_client.py lines 162-165). -/
def initState : LoopState := ⟨0, 0, 0, 0⟩

/-- A read oracle on which every `cap.read()` fails. -/
def failReads : Nat → ReadResult := fun _ => .fail

/-- One YOLO detection: bounding-box corners from `box.xyxy[0]` cast to
int, confidence `float(box.conf[0])` (here a rational in place of the
float), and class id `int(box.cls[0])`. -/
structure Detection where
  x1 : Int
  y1 : Int
  x2 : Int
  y2 : Int
  conf : ℚ
  classId : Nat
  deriving DecidableEq, Repr

/-- Drawing of one detection that passed the confidence gate
(opencv_rtsp_client.py lines 62-74): the green bounding box, the filled
green label background sized by `cv2.getTextSize` (an external metric,
passed in as `textSize`), and the black label text at `(x1, y1 - 5)`. -/
def drawDetection (names : Nat → String) (textSize : String → ℚ → Int × Int)
    (f : Frame) (d : Detection) : Frame :=
  let name := names d.classId
  let sz := textSize name d.conf
  { f with overlays := f.overlays ++
      [ .rect d.x1 d.y1 d.x2 d.y2 (0, 255, 0) 2,
        .rect d.x1 (d.y1 - sz.2 - 10) (d.x1 + sz.1) d.y1 (0, 255, 0) (-1),
        .text name d.conf d.x1 (d.y1 - 5) (0, 0, 0) ] }

/-- The result-processing loop of `detect_chess_pieces`
(opencv_rtsp_client.py lines 46-74) with the nested `results`/`boxes`
iteration flattened to one detection list: each detection is drawn only
when `confidence > 0.3`, in order; the others leave the frame as is. -/
def annotate (names : Nat → String) (textSize : String → ℚ → Int × Int)
    (dets : List Detection) (f : Frame) : Frame :=
  dets.foldl (fun fr d => if (3 : ℚ) / 10 < d.conf then drawDetection names textSize fr d else fr) f

/-- Outcome of running the YOLO model on a frame: a detection list, or a
raised exception carrying a message. -/
inductive InferResult where
  | ok (dets : List Detection)
  | err (msg : String)
  deriving Repr

/-- The loaded annotation model: its class-name table `model.names` and
its inference call `model(frame, verbose=False)`, which may raise. -/
structure Model where
  names : Nat → String
  infer : Frame → InferResult

/-- Function `detect_chess_pieces(model, frame)` (opencv_rtsp_client.py lines
36-80): identity when the model is `None`; otherwise run inference and
draw the gated detections, and on a raised exception log it and return
the frame — the exception never propagates (the Lean function is total
and always returns a `Frame`). -/
def detect_chess_pieces (textSize : String → ℚ → Int × Int)
    (model : Option Model) (frame : Frame) : Frame :=
  match model with
  | none => frame
  | some m =>
    match m.infer frame with
    | .ok dets => annotate m.names textSize dets frame
    | .err _ => frame

/-- The guarded call site in the main loop (opencv_rtsp_client.py lines
167, 209-210): `chess_detection_enabled = chess_model is not None`, and
`detect_chess_pieces` runs only when that flag is set. -/
def applyDetection (textSize : String → ℚ → Int × Int)
    (model : Option Model) (frame : Frame) : Frame :=
  if model.isSome then detect_chess_pieces textSize model frame else frame

/-- What the one-shot probe's environment does when asked: `open` fails,
or `open` succeeds and the single `cap.read()` yields `(ret, frame)`, or
some call raises an exception with a message. -/
inductive ProbeOutcome where
  | openFail
  | opened (ret : Bool) (frameIsSome : Bool)
  | raises (msg : String)
  deriving DecidableEq, Repr

/-- Function `check_rtsp_stream_access(rtsp_url)` (main.py lines 42-74): open the
capture; if opened, read one frame and release; report
`(True, ...)` only when `ret and frame is not None`; every failure path,
including a raised exception, returns `(False, reason)` — the function
is total, it never propagates an exception. -/
def check_rtsp_stream_access (rtsp_url : String) (o : ProbeOutcome) : Bool × String :=
  match o with
  | .opened ret frameIsSome =>
    if ret && frameIsSome then
      (true, "RTSP stream accessible via MediaMTX")
    else
      (false, "RTSP stream opened but no frames received: " ++ rtsp_url)
  | .openFail => (false, "Could not open RTSP stream: " ++ rtsp_url)
  | .raises msg => (false, "Error testing RTSP stream " ++ rtsp_url ++ ": " ++ msg)

/-- Python's `"%03d"`-style formatting used in
`f"stream_screenshot_{screenshot_count:03d}.jpg"`: the decimal digits of
`n`, left-padded with zeros to width 3. -/
def pad3 (n : Nat) : String :=
  let s := toString n
  if s.length < 3 then String.mk (List.replicate (3 - s.length) '0') ++ s else s

/-- The snapshot filename built at opencv_rtsp_client.py line 255. -/
def screenshotFilename (n : Nat) : String :=
  "stream_screenshot_" ++ pad3 n ++ ".jpg"

/-- The `'s'` key branch (opencv_rtsp_client.py lines 253-257): increment
`screenshot_count`, then save under the filename built from the new
value.  Returns the new counter and the number used in the filename. -/
def saveSnapshot (screenshot_count : Nat) : Nat × Nat :=
  (screenshot_count + 1, screenshot_count + 1)

/-- The snapshot numbers used by `k` successive save-snapshot commands
starting from counter value `c`. -/
def snapshotRunAux : Nat → Nat → List Nat
  | 0, _ => []
  | k + 1, c => (saveSnapshot c).2 :: snapshotRunAux k (saveSnapshot c).1

/-- The snapshot numbers used by `k` save-snapshot commands within one
session (the counter starts at 0, opencv_rtsp_client.py line 163). -/
def snapshotNumbersUsed (k : Nat) : List Nat := snapshotRunAux k 0

/-- argparse `action='store_true'` semantics: the destination holds
`True` when the flag is present on the command line, and the declared
default otherwise. -/
def storeTrueValue (defaultValue : Bool) (present : Bool) : Bool :=
  if present then true else defaultValue

/-- The parsed `args.tcp` for a given command line
(opencv_rtsp_client.py lines 87-88: `action='store_true', default=True`). -/
def tcpFlag (argv : List String) : Bool :=
  storeTrueValue true (argv.contains "--tcp")

/-- The FFmpeg capture-options environment variable after argument
handling (opencv_rtsp_client.py lines 93-94): set to the TCP transport
string when `args.tcp` holds, untouched otherwise. -/
def captureOptionsEnv (argv : List String) : Option String :=
  if tcpFlag argv then some "rtsp_transport;tcp" else none

/-- A concrete read oracle: the first read succeeds, every later one fails. -/
def okThenFail : Nat → ReadResult := fun n =>
  if n = 0 then .ok ⟨[7], []⟩ else .fail

lemma flush_fail_first (reads : Nat → ReadResult) (pos : Nat)
    (h : reads pos = .fail) : flush reads pos = ((false, none), pos + 1) := by
  simp [flush, flushAux, h]

lemma flush_fail_second (reads : Nat → ReadResult) (pos : Nat) (f0 : Frame)
    (h0 : reads pos = .ok f0) (h1 : reads (pos + 1) = .fail) :
    flush reads pos = ((false, none), pos + 2) := by
  simp [flush, flushAux, h0, h1]

lemma flush_fail_third (reads : Nat → ReadResult) (pos : Nat) (f0 f1 : Frame)
    (h0 : reads pos = .ok f0) (h1 : reads (pos + 1) = .ok f1)
    (h2 : reads (pos + 2) = .fail) :
    flush reads pos = ((false, none), pos + 3) := by
  simp [flush, flushAux, h0, h1, h2]

lemma flush_all_ok (reads : Nat → ReadResult) (pos : Nat) (f0 f1 f2 : Frame)
    (h0 : reads pos = .ok f0) (h1 : reads (pos + 1) = .ok f1)
    (h2 : reads (pos + 2) = .ok f2) :
    flush reads pos = ((true, some f2), pos + 3) := by
  simp [flush, flushAux, h0, h1, h2]

lemma loopStep_fail_le30 (reads : Nat → ReadResult) (reopenOk : Bool) (s : LoopState)
    (hf : reads s.pos = .fail) (hc : s.no_frame_count + 1 ≤ 30) :
    loopStep reads reopenOk s =
      ({ s with pos := s.pos + 1, no_frame_count := s.no_frame_count + 1 }, .skipped) := by
  rw [loopStep, flush_fail_first reads s.pos hf]
  simp
  omega

lemma loopStep_fail_over30 (reads : Nat → ReadResult) (s : LoopState)
    (hf : reads s.pos = .fail) (hc : 30 < s.no_frame_count + 1) :
    loopStep reads true s =
      ({ s with pos := s.pos + 1, no_frame_count := 0 }, .reconnected) ∧
    loopStep reads false s =
      ({ s with pos := s.pos + 1, no_frame_count := s.no_frame_count + 1 }, .terminated) := by
  constructor <;>
    · rw [loopStep, flush_fail_first reads s.pos hf]
      simp [hc]

lemma runLoop_fail_skipped (n : Nat) : ∀ c p fc sc : Nat, c + n ≤ 30 →
    runLoop failReads true n ⟨p, c, fc, sc⟩ =
      (⟨p + n, c + n, fc, sc⟩, List.replicate n .skipped) := by
  induction n with
  | zero => intro c p fc sc _; simp [runLoop]
  | succ n ih =>
    intro c p fc sc h
    rw [runLoop]
    rw [loopStep_fail_le30 failReads true ⟨p, c, fc, sc⟩ rfl (by show c + 1 ≤ 30; omega)]
    simp only
    rw [ih (c + 1) (p + 1) fc sc (by omega)]
    have e1 : p + 1 + n = p + (n + 1) := by omega
    have e2 : c + 1 + n = c + (n + 1) := by omega
    rw [e1, e2, List.replicate_succ]

lemma runLoop_fail_to31 (n : Nat) : ∀ c p fc sc : Nat, 1 ≤ n → c + n = 31 →
    runLoop failReads true n ⟨p, c, fc, sc⟩ =
      (⟨p + n, 0, fc, sc⟩, List.replicate (n - 1) .skipped ++ [.reconnected]) := by
  induction n with
  | zero => intro c p fc sc h1 _; omega
  | succ n ih =>
    intro c p fc sc _ h2
    rw [runLoop]
    by_cases hn : n = 0
    · subst hn
      have hc : c = 30 := by omega
      subst hc
      rw [(loopStep_fail_over30 failReads ⟨p, 30, fc, sc⟩ rfl
        (by show 30 < 30 + 1; omega)).1]
      simp [runLoop]
    · rw [loopStep_fail_le30 failReads true ⟨p, c, fc, sc⟩ rfl (by show c + 1 ≤ 30; omega)]
      simp only
      rw [ih (c + 1) (p + 1) fc sc (by omega) (by omega)]
      have e1 : p + 1 + n = p + (n + 1) := by omega
      have e2 : n + 1 - 1 = n := by omega
      have e3 : n - 1 + 1 = n := by omega
      rw [e1, e2]
      rw [show List.replicate n StepOut.skipped = List.replicate (n - 1 + 1) StepOut.skipped by rw [e3]]
      rw [List.replicate_succ]
      simp

/-- C1 counterexample: the claim says the session transitions to
`Reconnecting` exactly when the run of consecutive read failures reaches
N = 30.  On the code, a fresh session that suffers exactly 30 consecutive
read failures performs 30 plain skipped iterations: no reconnect is ever
initiated (the guard is `no_frame_count > 30`, which is still false at
30), refuting the claim at the concrete input N = 30. -/
theorem C1_counterexample :
    (runLoop failReads true 30 initState).2 = List.replicate 30 .skipped ∧
    StepOut.reconnected ∉ (runLoop failReads true 30 initState).2 := by
  have h := runLoop_fail_skipped 30 0 0 0 0 (by omega)
  refine ⟨by rw [initState, h], ?_⟩
  rw [initState, h]
  simp

/-- C1 (amended): for a run of N consecutive read failures starting from
a fresh session, the session stays in `Streaming` (every iteration is a
plain skip, no reconnect initiated) for all N ≤ 30, and the transition to
`Reconnecting` (release, backoff, reopen) happens exactly at N = 31, the
first count strictly exceeding the threshold 30. -/
theorem C1_reconnect_threshold (n : Nat) :
    (n ≤ 30 → (runLoop failReads true n initState).2 = List.replicate n .skipped) ∧
    (n = 31 → (runLoop failReads true n initState).2 =
      List.replicate 30 .skipped ++ [.reconnected]) := by
  constructor
  · intro h
    rw [initState, runLoop_fail_skipped n 0 0 0 0 (by omega)]
  · intro h
    subst h
    rw [initState, runLoop_fail_to31 31 0 0 0 0 (by omega) (by omega)]

/-- C1 witness: the amended theorem evaluated at the concrete runs
N = 30 (still streaming) and N = 31 (reconnect initiated). -/
theorem C1_reconnect_threshold_witness :
    (runLoop failReads true 30 initState).2 = List.replicate 30 .skipped ∧
    (runLoop failReads true 31 initState).2 =
      List.replicate 30 .skipped ++ [.reconnected] :=
  ⟨(C1_reconnect_threshold 30).1 (by omega), (C1_reconnect_threshold 31).2 rfl⟩

/-- C2 counterexample: the claim says a reopen failure leads back to
`Reconnecting` (indefinite retry) and that the acquisition loop never
terminates itself.  On the code, with the failure counter at 30, one more
failed read triggers the reconnect path, and when the reopen fails the
loop executes `break`: the iteration's outcome is `terminated`, ending
the loop with no user stop. -/
theorem C2_counterexample :
    (loopStep failReads false ⟨0, 30, 0, 0⟩).2 = .terminated ∧
    (loopStep failReads false ⟨0, 30, 0, 0⟩).2 ≠ .reconnected := by
  constructor <;> decide

/-- C2 (amended): in the reconnect path (a failed read pushing the
consecutive-failure counter past 30), a successful reopen returns the
session to streaming with the counter reset to 0, but a failed reopen
makes the acquisition loop `break` and terminate itself — the loop can
end without an explicit user or operator stop. -/
theorem C2_reopen_behavior (reads : Nat → ReadResult) (s : LoopState)
    (hfail : (flush reads s.pos).1.1 = false)
    (hc : 30 < s.no_frame_count + 1) :
    (loopStep reads true s).2 = .reconnected ∧
    (loopStep reads true s).1.no_frame_count = 0 ∧
    (loopStep reads false s).2 = .terminated := by
  rcases hf : flush reads s.pos with ⟨⟨ret, fr⟩, posNew⟩
  rw [hf] at hfail
  simp only at hfail
  subst hfail
  refine ⟨?_, ?_, ?_⟩ <;> simp [loopStep, hf, hc]

/-- C2 witness: the amended theorem at the concrete state with 30
consecutive failures already recorded and an always-failing source. -/
theorem C2_reopen_behavior_witness :
    (loopStep failReads true ⟨0, 30, 0, 0⟩).2 = .reconnected ∧
    (loopStep failReads true ⟨0, 30, 0, 0⟩).1.no_frame_count = 0 ∧
    (loopStep failReads false ⟨0, 30, 0, 0⟩).2 = .terminated :=
  C2_reopen_behavior failReads ⟨0, 30, 0, 0⟩ rfl (by show 30 < 30 + 1; omega)

/-- C3 counterexample: the claim says that whenever at least one read in
the flush batch succeeds, the last successfully decoded frame is surfaced
and the iteration is not treated as a failure.  On the code, with a batch
whose first read succeeds and second read fails, the flush ends with
`ret = False` and no frame: the iteration is treated as a failure (the
outcome is a skip that increments the failure counter), even though a
read in the batch succeeded. -/
theorem C3_counterexample :
    okThenFail 0 = .ok ⟨[7], []⟩ ∧
    flush okThenFail 0 = ((false, none), 2) ∧
    (loopStep okThenFail true initState).2 = .skipped := by
  refine ⟨rfl, rfl, ?_⟩
  decide

/-- C3 (amended): the inner flush performs at most K = 3 reads (and at
least one), stops early right after the first failed read, and surfaces
the last read's outcome: the iteration succeeds only when all three reads
of the batch succeed, in which case the surfaced frame is the last
(third) one of the batch — never an earlier one; if any read of the batch
fails, the iteration is treated as a failure even when an earlier read
succeeded. -/
theorem C3_flush_behavior (reads : Nat → ReadResult) (pos : Nat) :
    (pos + 1 ≤ (flush reads pos).2 ∧ (flush reads pos).2 ≤ pos + 3) ∧
    (reads pos = .fail → flush reads pos = ((false, none), pos + 1)) ∧
    (∀ f0, reads pos = .ok f0 → reads (pos + 1) = .fail →
      flush reads pos = ((false, none), pos + 2)) ∧
    (∀ f0 f1, reads pos = .ok f0 → reads (pos + 1) = .ok f1 →
      reads (pos + 2) = .fail → flush reads pos = ((false, none), pos + 3)) ∧
    (∀ f0 f1 f2, reads pos = .ok f0 → reads (pos + 1) = .ok f1 →
      reads (pos + 2) = .ok f2 → flush reads pos = ((true, some f2), pos + 3)) := by
  refine ⟨?_, flush_fail_first reads pos,
    fun f0 => flush_fail_second reads pos f0,
    fun f0 f1 => flush_fail_third reads pos f0 f1,
    fun f0 f1 f2 => flush_all_ok reads pos f0 f1 f2⟩
  rcases h0 : reads pos with f0 | _
  · rcases h1 : reads (pos + 1) with f1 | _
    · rcases h2 : reads (pos + 2) with f2 | _
      · rw [flush_all_ok reads pos f0 f1 f2 h0 h1 h2]; omega
      · rw [flush_fail_third reads pos f0 f1 h0 h1 h2]; omega
    · rw [flush_fail_second reads pos f0 h0 h1]; omega
  · rw [flush_fail_first reads pos h0]; omega

/-- C3 witness: the amended theorem evaluated on an always-succeeding
source (all three reads succeed and the third frame is surfaced) and on
a source failing at the second read. -/
theorem C3_flush_behavior_witness :
    flush (fun _ => .ok ⟨[9], []⟩) 0 = ((true, some ⟨[9], []⟩), 3) ∧
    flush okThenFail 5 = ((false, none), 6) :=
  ⟨(C3_flush_behavior (fun _ => .ok ⟨[9], []⟩) 0).2.2.2.2 _ _ _ rfl rfl rfl,
   (C3_flush_behavior okThenFail 5).2.1 rfl⟩

/-- C7 (confirmed): per acquisition iteration, a successful flush resets
the consecutive-failure counter to 0; a failed flush increments it by
exactly 1 whenever no reconnect happens this iteration; and after a
successful reopen (`reconnected` outcome) the counter is 0. -/
theorem C7_failure_counter (reads : Nat → ReadResult) (reopenOk : Bool) (s : LoopState) :
    ((flush reads s.pos).1.1 = true → (loopStep reads reopenOk s).1.no_frame_count = 0) ∧
    ((flush reads s.pos).1.1 = false → (loopStep reads reopenOk s).2 ≠ .reconnected →
      (loopStep reads reopenOk s).1.no_frame_count = s.no_frame_count + 1) ∧
    ((loopStep reads reopenOk s).2 = .reconnected →
      (loopStep reads reopenOk s).1.no_frame_count = 0) := by
  rcases hf : flush reads s.pos with ⟨⟨ret, fr⟩, posNew⟩
  cases ret
  · simp only [loopStep, hf]
    refine ⟨fun h => by simp at h, fun _ => ?_, ?_⟩ <;>
      by_cases hc : 30 < s.no_frame_count + 1 <;>
        cases reopenOk <;> simp [hc]
  · simp [loopStep, hf]

/-- C7 witness: the theorem evaluated at a fresh session over an
always-failing source (counter goes 0 → 1) and, via the first conjunct,
over an always-succeeding source (counter reset to 0). -/
theorem C7_failure_counter_witness :
    (loopStep failReads true initState).1.no_frame_count = 0 + 1 ∧
    (loopStep (fun _ => .ok ⟨[9], []⟩) true initState).1.no_frame_count = 0 :=
  ⟨(C7_failure_counter failReads true initState).2.1 rfl (by decide),
   (C7_failure_counter (fun _ => .ok ⟨[9], []⟩) true initState).1 rfl⟩

/-- C4 (confirmed): when the annotation model is unavailable (`None`,
whether it failed to load or the weights file is absent),
`detect_chess_pieces` is the identity on the frame — byte for byte — and
so is the guarded call site in the main loop; both are total functions,
so no error is raised. -/
theorem C4_unavailable_identity (textSize : String → ℚ → Int × Int) (frame : Frame) :
    detect_chess_pieces textSize none frame = frame ∧
    applyDetection textSize none frame = frame ∧
    (detect_chess_pieces textSize none frame).pixels = frame.pixels ∧
    (detect_chess_pieces textSize none frame).overlays = frame.overlays :=
  ⟨rfl, rfl, rfl, rfl⟩

lemma annotate_eq_filter_foldl (names : Nat → String)
    (textSize : String → ℚ → Int × Int) (dets : List Detection) :
    ∀ f : Frame, annotate names textSize dets f =
      (dets.filter (fun d => decide ((3 : ℚ) / 10 < d.conf))).foldl
        (drawDetection names textSize) f := by
  induction dets with
  | nil => intro f; rfl
  | cons d ds ih =>
    intro f
    by_cases h : (3 : ℚ) / 10 < d.conf
    · have e1 : annotate names textSize (d :: ds) f
          = annotate names textSize ds (drawDetection names textSize f d) := by
        simp [annotate, h]
      rw [e1, ih, List.filter_cons_of_pos (by simpa using h), List.foldl_cons]
    · have e1 : annotate names textSize (d :: ds) f = annotate names textSize ds f := by
        simp [annotate, h]
      rw [e1, ih, List.filter_cons_of_neg (by simpa using h)]

/-- C8 (confirmed): exactly the detections whose confidence is strictly
above 0.3 are drawn, in order (the annotation equals folding the draw
step over the filtered list); a single detection at or below 0.3 leaves
the frame unmodified, while one strictly above 0.3 contributes its
bounding box, label background, and class-label text overlays. -/
theorem C8_confidence_gate (names : Nat → String)
    (textSize : String → ℚ → Int × Int) (dets : List Detection) (frame : Frame) :
    annotate names textSize dets frame =
      (dets.filter (fun d => decide ((3 : ℚ) / 10 < d.conf))).foldl
        (drawDetection names textSize) frame ∧
    (∀ d : Detection, d.conf ≤ 3 / 10 → annotate names textSize [d] frame = frame) ∧
    (∀ d : Detection, (3 : ℚ) / 10 < d.conf →
      annotate names textSize [d] frame = drawDetection names textSize frame d) ∧
    (∀ d : Detection, (drawDetection names textSize frame d).overlays =
      frame.overlays ++
        [ .rect d.x1 d.y1 d.x2 d.y2 (0, 255, 0) 2,
          .rect d.x1 (d.y1 - (textSize (names d.classId) d.conf).2 - 10)
            (d.x1 + (textSize (names d.classId) d.conf).1) d.y1 (0, 255, 0) (-1),
          .text (names d.classId) d.conf d.x1 (d.y1 - 5) (0, 0, 0) ]) := by
  refine ⟨annotate_eq_filter_foldl names textSize dets frame, ?_, ?_, fun d => rfl⟩
  · intro d h
    simp [annotate, not_lt.mpr h]
  · intro d h
    simp [annotate, h]

/-- C8 witness: the theorem applied at one detection below the gate
(confidence 1/10: frame unchanged) and one above it (confidence 9/10:
exactly the three overlays drawn). -/
theorem C8_confidence_gate_witness :
    annotate (fun _ => "piece") (fun _ _ => (40, 12)) [⟨0, 20, 5, 25, 1 / 10, 0⟩]
      ⟨[3], []⟩ = ⟨[3], []⟩ ∧
    annotate (fun _ => "piece") (fun _ _ => (40, 12)) [⟨0, 20, 5, 25, 9 / 10, 0⟩]
      ⟨[3], []⟩ =
      drawDetection (fun _ => "piece") (fun _ _ => (40, 12)) ⟨[3], []⟩
        ⟨0, 20, 5, 25, 9 / 10, 0⟩ :=
  ⟨(C8_confidence_gate (fun _ => "piece") (fun _ _ => (40, 12)) [] ⟨[3], []⟩).2.1
      ⟨0, 20, 5, 25, 1 / 10, 0⟩ (by norm_num),
   (C8_confidence_gate (fun _ => "piece") (fun _ _ => (40, 12)) [] ⟨[3], []⟩).2.2.1
      ⟨0, 20, 5, 25, 9 / 10, 0⟩ (by norm_num)⟩

/-- C9 (confirmed): when inference raises on a frame, the caught
exception never propagates (`detect_chess_pieces` is total and returns a
`Frame`) and the frame is passed through to display unannotated —
the output is the input frame itself. -/
theorem C9_detect_error_passthrough (textSize : String → ℚ → Int × Int)
    (m : Model) (frame : Frame) (msg : String) (h : m.infer frame = .err msg) :
    detect_chess_pieces textSize (some m) frame = frame := by
  simp [detect_chess_pieces, h]

/-- C9 witness: the theorem at a concrete model whose inference always
raises. -/
theorem C9_detect_error_passthrough_witness :
    detect_chess_pieces (fun _ _ => (0, 0))
      (some ⟨fun _ => "piece", fun _ => .err "CUDA out of memory"⟩) ⟨[5], []⟩ =
      ⟨[5], []⟩ :=
  C9_detect_error_passthrough (fun _ _ => (0, 0))
    ⟨fun _ => "piece", fun _ => .err "CUDA out of memory"⟩ ⟨[5], []⟩
    "CUDA out of memory" rfl

lemma snapshotRunAux_eq (k : Nat) : ∀ c : Nat,
    snapshotRunAux k c = (List.range k).map (fun i => c + i + 1) := by
  induction k with
  | zero => intro c; simp [snapshotRunAux]
  | succ k ih =>
    intro c
    have e : snapshotRunAux (k + 1) c = (c + 1) :: snapshotRunAux k (c + 1) := rfl
    rw [e, ih (c + 1), List.range_succ_eq_map]
    simp only [List.map_cons, List.map_map, List.cons.injEq]
    refine ⟨trivial, ?_⟩
    congr 1
    funext i
    simp only [Function.comp_apply]
    omega

lemma snapshotNumbersUsed_getD (k i : Nat) (h : i < k) :
    (snapshotNumbersUsed k).getD i 0 = i + 1 := by
  rw [snapshotNumbersUsed, snapshotRunAux_eq k 0]
  have hlen : i < ((List.range k).map (fun j => 0 + j + 1)).length := by simpa using h
  rw [List.getD_eq_getElem _ _ hlen]
  simp

/-- C5 (confirmed): within a session (counter starting at 0), the
snapshot numbers used by successive save-snapshot commands are exactly
1, 2, 3, ... — strictly increasing, gapless, starting at 1 — and each
filename is the fixed stem followed by the zero-padded counter and the
`.jpg` image extension. -/
theorem C5_snapshot_numbering (k : Nat) :
    snapshotNumbersUsed k = (List.range k).map (fun i => i + 1) ∧
    (∀ i j, i < j → j < k →
      (snapshotNumbersUsed k).getD i 0 < (snapshotNumbersUsed k).getD j 0) ∧
    (∀ i, i + 1 < k →
      (snapshotNumbersUsed k).getD (i + 1) 0 = (snapshotNumbersUsed k).getD i 0 + 1) ∧
    (0 < k → (snapshotNumbersUsed k).getD 0 0 = 1) ∧
    (∀ n, screenshotFilename n = "stream_screenshot_" ++ pad3 n ++ ".jpg") ∧
    screenshotFilename 1 = "stream_screenshot_001.jpg" ∧
    screenshotFilename 12 = "stream_screenshot_012.jpg" ∧
    screenshotFilename 123 = "stream_screenshot_123.jpg" := by
  refine ⟨?_, ?_, ?_, ?_, fun n => rfl, ?_, ?_, ?_⟩
  · rw [snapshotNumbersUsed, snapshotRunAux_eq k 0]
    congr 1
    funext i
    omega
  · intro i j hij hjk
    rw [snapshotNumbersUsed_getD k i (by omega), snapshotNumbersUsed_getD k j hjk]
    omega
  · intro i h
    rw [snapshotNumbersUsed_getD k (i + 1) h, snapshotNumbersUsed_getD k i (by omega)]
  · intro h
    rw [snapshotNumbersUsed_getD k 0 h]
  · rfl
  · rfl
  · rfl

/-- C5 witness: the theorem evaluated at a session of three snapshots:
the numbers used are [1, 2, 3], consecutive and starting at 1. -/
theorem C5_snapshot_numbering_witness :
    (snapshotNumbersUsed 3).getD 0 0 = 1 ∧
    (snapshotNumbersUsed 3).getD 1 0 = (snapshotNumbersUsed 3).getD 0 0 + 1 ∧
    (snapshotNumbersUsed 3).getD 0 0 < (snapshotNumbersUsed 3).getD 2 0 :=
  ⟨(C5_snapshot_numbering 3).2.2.2.1 (by omega),
   (C5_snapshot_numbering 3).2.2.1 0 (by omega),
   (C5_snapshot_numbering 3).2.1 0 2 (by omega) (by omega)⟩

/-- C6 (confirmed): the one-shot status probe returns `(true, reason)`
exactly when the open succeeds and the single read yields
`ret = True` with a non-null frame; when the open fails, when the opened
stream yields no frame, or when any call raises, it returns
`(false, reason)` — the Lean embedding is a total function, so no
exception escapes on any outcome. -/
theorem C6_probe_behavior (rtsp_url : String) (o : ProbeOutcome) :
    ((check_rtsp_stream_access rtsp_url o).1 = true ↔ o = .opened true true) ∧
    (check_rtsp_stream_access rtsp_url .openFail =
      (false, "Could not open RTSP stream: " ++ rtsp_url)) ∧
    (∀ ret frameIsSome : Bool, (ret && frameIsSome) = false →
      check_rtsp_stream_access rtsp_url (.opened ret frameIsSome) =
        (false, "RTSP stream opened but no frames received: " ++ rtsp_url)) ∧
    (∀ msg, check_rtsp_stream_access rtsp_url (.raises msg) =
      (false, "Error testing RTSP stream " ++ rtsp_url ++ ": " ++ msg)) := by
  refine ⟨?_, rfl, ?_, fun msg => rfl⟩
  · cases o with
    | opened ret fs => cases ret <;> cases fs <;> simp [check_rtsp_stream_access]
    | openFail => simp [check_rtsp_stream_access]
    | raises msg => simp [check_rtsp_stream_access]
  · intro ret fs h
    cases ret <;> cases fs <;> simp_all [check_rtsp_stream_access]

/-- C6 witness: the theorem at a concrete URL, on an unreachable source
(open fails) and on an opened stream that yields no frame. -/
theorem C6_probe_behavior_witness :
    check_rtsp_stream_access "rtsp://127.0.0.1:8554/live/stream1" .openFail =
      (false, "Could not open RTSP stream: rtsp://127.0.0.1:8554/live/stream1") ∧
    check_rtsp_stream_access "rtsp://127.0.0.1:8554/live/stream1" (.opened false false) =
      (false,
        "RTSP stream opened but no frames received: rtsp://127.0.0.1:8554/live/stream1") :=
  ⟨(C6_probe_behavior "rtsp://127.0.0.1:8554/live/stream1" .openFail).2.1,
   (C6_probe_behavior "rtsp://127.0.0.1:8554/live/stream1"
      (.opened false false)).2.2.1 false false rfl⟩

/-- C10 (confirmed): with argparse `store_true` semantics and a declared
default of `True`, the parsed `args.tcp` is `true` on every command line
— whether or not `--tcp` appears — so the TCP capture option is always
written to the environment and the UDP transport path is unreachable
from the command-line surface. -/
theorem C10_tcp_flag_always_true (argv : List String) :
    tcpFlag argv = true ∧
    captureOptionsEnv argv = some "rtsp_transport;tcp" ∧
    storeTrueValue true (argv.contains "--tcp") = true := by
  have h : tcpFlag argv = true := by
    rw [tcpFlag, storeTrueValue]
    cases argv.contains "--tcp" <;> simp
  refine ⟨h, by simp [captureOptionsEnv, h], ?_⟩
  rw [storeTrueValue]
  cases argv.contains "--tcp" <;> simp

end StreamerChess
